import Mathlib

/-!
Shallow embedding of `src/geojson_writer.rs` from the `rust-geos` repository:
a safe wrapper around the native GEOS GeoJSON writer.  Native pointers are
modelled as `Nat` (0 is the null pointer), the external native library as an
oracle supplying the result of each native call, and every native call made by
the wrapper is recorded in a trace.
-/

/-- Error type from `error.rs` (not under `src/`).
Modelled from the spec: "Two error kinds: construction failure (null pointer
from a factory call) and operation failure (null/sentinel from a method call).
Both carry an optional last-error string retrieved from the context."
`NoConstructionFromNullPtr` is the construction kind named in
`geojson_writer.rs`; `OperationError` is the operation kind. -/
inductive Error where
  | NoConstructionFromNullPtr (msg : String)
  | OperationError (msg : String)
deriving DecidableEq, Repr

/-- `GResult<T>` from the crate: a result that is either a value or an `Error`. -/
abbrev GResult (α : Type) := Except Error α

/-- `ContextHandle` from `context_handle.rs` (not under `src/`).
Modelled from the spec: "Context handle: shared object carrying native
error/notice callback state required by every native call"; it exposes a raw
native handle and an optional last recorded native error text. -/
structure ContextHandle where
  raw : Nat
  lastError : Option String
deriving DecidableEq, Repr

/-- Modelled from the spec: the context's accessor for "the last recorded
native error text, if any" (`ContextHandle::get_last_error`, not under `src/`). -/
def ContextHandle.get_last_error (c : ContextHandle) : Option String :=
  c.lastError

/-- Modelled from the spec: `ContextHandle::as_raw` returns the context's raw
native handle (not under `src/`). -/
def ContextHandle.as_raw (c : ContextHandle) : Nat :=
  c.raw

/-- `std::sync::Arc`: a shared reference-counted pointer.  `id` identifies the
allocation; cloning shares the allocation, a fresh `Arc::new` gets a fresh id.
Reference counts are kept in a separate heap `Nat → Nat` indexed by id. -/
structure Arc (α : Type) where
  id : Nat
  val : α
deriving DecidableEq, Repr

/-- `Arc::clone`: returns a reference to the very same allocation (same id,
same value) and bumps that allocation's reference count, leaving all other
counts untouched. -/
def Arc.clone {α : Type} (heap : Nat → Nat) (a : Arc α) : Arc α × (Nat → Nat) :=
  (a, fun i => if i = a.id then heap i + 1 else heap i)

/-- One native GEOS call made by the wrapper, with the exact raw arguments it
passed: the writer constructor, the GeoJSON write, the buffer release done by
`managed_string`, and the writer destructor. -/
inductive NativeCall where
  | create (ctx : Nat)
  | writeGeometry (ctx : Nat) (writer : Nat) (geom : Nat) (indent : Int)
  | geosFree (ctx : Nat) (buf : Nat)
  | destroy (ctx : Nat) (writer : Nat)
deriving DecidableEq, Repr

/-- The raw context handle a native call was given. -/
def NativeCall.ctx : NativeCall → Nat
  | NativeCall.create c => c
  | NativeCall.writeGeometry c _ _ _ => c
  | NativeCall.geosFree c _ => c
  | NativeCall.destroy c _ => c

/-- The external native library, as an oracle: what each native call returns.
`init_e` is `ContextHandle::init_e` (not under `src/`), which either yields a
fresh context handle or fails; `createResult` is the pointer returned by
`GEOSGeoJSONWriter_create_r`; `writeGeometryResult` is the buffer pointer
returned by `GEOSGeoJSONWriter_writeGeometry_r`; `bufferContent` is the string
stored at a native output buffer. -/
structure NativeOracle where
  init_e : Option String → Except Error ContextHandle
  createResult : Nat → Nat
  writeGeometryResult : Nat → Nat → Nat → Int → Nat
  bufferContent : Nat → String

/-- `GeoJSONWriter` from `geojson_writer.rs`: an exclusively-owned native
pointer (`PtrWrap<*mut GEOSGeoJSONWriter>`) and a shared `Arc<ContextHandle>`. -/
structure GeoJSONWriter where
  ptr : Nat
  context : Arc ContextHandle
deriving DecidableEq, Repr

/-- `ContextHandling::get_raw_context` for `GeoJSONWriter`: `self.context.as_raw()`. -/
def GeoJSONWriter.get_raw_context (w : GeoJSONWriter) : Nat :=
  w.context.val.as_raw

/-- `ContextInteractions::get_context_handle` for `GeoJSONWriter`: `&self.context`. -/
def GeoJSONWriter.get_context_handle (w : GeoJSONWriter) : ContextHandle :=
  w.context.val

/-- `AsRaw::as_raw` for `GeoJSONWriter`: `*self.ptr`. -/
def GeoJSONWriter.as_raw (w : GeoJSONWriter) : Nat :=
  w.ptr

/-- `AsRawMut::as_raw_mut` for `GeoJSONWriter`: `*self.ptr`. -/
def GeoJSONWriter.as_raw_mut (w : GeoJSONWriter) : Nat :=
  w.ptr

/-- The `extra` string built in `GeoJSONWriter::new_from_raw`:
`format!("\nLast error: {x}")` when the context has a last error, the empty
string otherwise. -/
def lastErrorSuffix (c : ContextHandle) : String :=
  match c.get_last_error with
  | some x => "\nLast error: " ++ x
  | none => ""

/-- `GeoJSONWriter::new_from_raw` (`geojson_writer.rs` lines 65-84): null
pointer yields `Error::NoConstructionFromNullPtr("GeoJSONWriter::{caller}{extra}")`,
otherwise the wrapper owning the pointer and the context. -/
def GeoJSONWriter.new_from_raw (ptr : Nat) (context : Arc ContextHandle)
    (caller : String) : GResult GeoJSONWriter :=
  if ptr = 0 then
    Except.error (Error.NoConstructionFromNullPtr
      ("GeoJSONWriter::" ++ caller ++ lastErrorSuffix context.val))
  else
    Except.ok { ptr := ptr, context := context }

/-- `GeoJSONWriter::new_with_context` (`geojson_writer.rs` lines 58-63): calls
`GEOSGeoJSONWriter_create_r(context.as_raw())` and hands the pointer to
`new_from_raw` with caller `"new_with_context"`.  Returns the result together
with the trace of native calls made. -/
def GeoJSONWriter.new_with_context (o : NativeOracle) (context : Arc ContextHandle) :
    GResult GeoJSONWriter × List NativeCall :=
  (GeoJSONWriter.new_from_raw (o.createResult context.val.as_raw) context
      "new_with_context",
    [NativeCall.create context.val.as_raw])

/-- `GeoJSONWriter::new` (`geojson_writer.rs` lines 38-43): initializes a fresh
context handle via `ContextHandle::init_e(Some("GeoJSONWriter::new"))`; on
success wraps it in a fresh `Arc` (allocation id `freshArcId`) and delegates to
`new_with_context`, on failure returns the error unchanged. -/
def GeoJSONWriter.new (o : NativeOracle) (freshArcId : Nat) :
    GResult GeoJSONWriter × List NativeCall :=
  match o.init_e (some "GeoJSONWriter::new") with
  | Except.ok context_handle =>
      GeoJSONWriter.new_with_context o { id := freshArcId, val := context_handle }
  | Except.error e => (Except.error e, [])

/-- Modelled from the spec: the helper `managed_string` (in `functions.rs`, not
under `src/`).  The spec: a native call "returns null/sentinel → translate to a
typed error carrying the last native error message, or returns a valid result →
convert into a owned, independently-lifetimed value (e.g., copy a native output
buffer into an owned string, then release the native buffer)". -/
def managed_string (o : NativeOracle) (raw : Nat) (context : ContextHandle)
    (caller : String) : GResult String × List NativeCall :=
  if raw = 0 then
    (Except.error (Error.OperationError (caller ++ lastErrorSuffix context)), [])
  else
    (Except.ok (o.bufferContent raw), [NativeCall.geosFree context.as_raw raw])

/-- `GeoJSONWriter::write` (`geojson_writer.rs` lines 98-108): calls
`GEOSGeoJSONWriter_writeGeometry_r(self.get_raw_context(), self.as_raw_mut(),
geometry.as_raw(), indent)` and hands the returned buffer pointer to
`managed_string`.  Returns the writer after the call (`&mut self`: the body
never assigns to its fields), the result, and the trace of native calls. -/
def GeoJSONWriter.write (o : NativeOracle) (w : GeoJSONWriter) (geometry : Nat)
    (indent : Int) : GeoJSONWriter × GResult String × List NativeCall :=
  (w,
    (managed_string o
        (o.writeGeometryResult w.get_raw_context w.as_raw_mut geometry indent)
        w.get_context_handle "GeoJSONWriter::write").1,
    NativeCall.writeGeometry w.get_raw_context w.as_raw_mut geometry indent ::
      (managed_string o
        (o.writeGeometryResult w.get_raw_context w.as_raw_mut geometry indent)
        w.get_context_handle "GeoJSONWriter::write").2)

/-- `impl Drop for GeoJSONWriter` (`geojson_writer.rs` lines 114-118):
`GEOSGeoJSONWriter_destroy_r(self.get_raw_context(), self.as_raw_mut())`. -/
def GeoJSONWriter.drop (w : GeoJSONWriter) : List NativeCall :=
  [NativeCall.destroy w.get_raw_context w.as_raw_mut]

/-- `ContextInteractions::set_context_handle` (`geojson_writer.rs` lines
131-133): `self.context = Arc::new(context)` — a fresh `Arc` allocation
(`freshArcId`) wrapping the given handle; nothing else is touched. -/
def GeoJSONWriter.set_context_handle (w : GeoJSONWriter) (context : ContextHandle)
    (freshArcId : Nat) : GeoJSONWriter :=
  { w with context := { id := freshArcId, val := context } }

/-- `ContextHandling::clone_context` (`geojson_writer.rs` lines 172-174):
`Arc::clone(&self.context)`. -/
def GeoJSONWriter.clone_context (heap : Nat → Nat) (w : GeoJSONWriter) :
    Arc ContextHandle × (Nat → Nat) :=
  Arc.clone heap w.context

/-- A sequence of `write` calls on a writer, threading the writer through and
concatenating the native-call traces. -/
def writeMany (o : NativeOracle) (w : GeoJSONWriter) :
    List (Nat × Int) → List NativeCall
  | [] => []
  | (g, i) :: rest =>
      ((GeoJSONWriter.write o w g i).2.2) ++
        writeMany o (GeoJSONWriter.write o w g i).1 rest

/-- A full lifetime of a writer built with `new_with_context`: construction,
then (when construction succeeded) an arbitrary sequence of `write` calls,
then the implicit `drop` at scope exit.  On the failure path the wrapper never
exists, so only the constructor call appears. -/
def session (o : NativeOracle) (context : Arc ContextHandle)
    (uses : List (Nat × Int)) : List NativeCall :=
  match GeoJSONWriter.new_with_context o context with
  | (Except.ok w, tr) => tr ++ (writeMany o w uses ++ GeoJSONWriter.drop w)
  | (Except.error _, tr) => tr

/-- Whether a native call is `GEOSGeoJSONWriter_destroy_r` on writer pointer `p`. -/
def isDestroyOf (p : Nat) : NativeCall → Bool
  | NativeCall.destroy _ wptr => wptr = p
  | _ => false

/-- Whether a native call is `GEOSGeoJSONWriter_writeGeometry_r`. -/
def isWriteGeometry : NativeCall → Bool
  | NativeCall.writeGeometry _ _ _ _ => true
  | _ => false

/-- Number of destructor calls on writer pointer `p` in a trace. -/
def destroyCount (p : Nat) (tr : List NativeCall) : Nat :=
  tr.countP (isDestroyOf p)

/-- A concrete reference-count heap used in examples. -/
def heap0 : Nat → Nat := fun _ => 0

/-- A concrete context whose last recorded native error is `"boom"`. -/
def ctxBoom : Arc ContextHandle :=
  { id := 1, val := { raw := 7, lastError := some "boom" } }

/-- A concrete context handle with no recorded error. -/
def cClean : ContextHandle := { raw := 8, lastError := none }

/-- `cClean` wrapped in an `Arc`. -/
def ctxClean : Arc ContextHandle := { id := 2, val := cClean }

/-- A concrete writer owning pointer 5 and sharing `ctxBoom`. -/
def w0 : GeoJSONWriter := { ptr := 5, context := ctxBoom }

/-- An oracle for which context initialization fails and every native
constructor and write returns null. -/
def nullOracle : NativeOracle :=
  { init_e := fun _ => Except.error (Error.OperationError "init failed")
    createResult := fun _ => 0
    writeGeometryResult := fun _ _ _ _ => 0
    bufferContent := fun _ => "" }

/-- An oracle for which every native call succeeds. -/
def okOracle : NativeOracle :=
  { init_e := fun _ => Except.ok cClean
    createResult := fun _ => 5
    writeGeometryResult := fun _ _ _ _ => 9
    bufferContent := fun _ => "json" }

theorem new_from_raw_null (c : Arc ContextHandle) (caller : String) :
    GeoJSONWriter.new_from_raw 0 c caller =
      Except.error (Error.NoConstructionFromNullPtr
        ("GeoJSONWriter::" ++ caller ++ lastErrorSuffix c.val)) := rfl

theorem new_from_raw_ok (ptr : Nat) (c : Arc ContextHandle) (caller : String)
    (h : ptr ≠ 0) :
    GeoJSONWriter.new_from_raw ptr c caller =
      Except.ok { ptr := ptr, context := c } := by
  simp [GeoJSONWriter.new_from_raw, h]

theorem write_fst (o : NativeOracle) (w : GeoJSONWriter) (g : Nat) (i : Int) :
    (GeoJSONWriter.write o w g i).1 = w := rfl

theorem write_trace_no_destroy (o : NativeOracle) (w : GeoJSONWriter) (g : Nat)
    (i : Int) (p : Nat) :
    ((GeoJSONWriter.write o w g i).2.2.countP (isDestroyOf p)) = 0 := by
  unfold GeoJSONWriter.write managed_string
  by_cases h : o.writeGeometryResult w.get_raw_context w.as_raw_mut g i = 0 <;>
    simp [h, List.countP_cons, isDestroyOf]

theorem writeMany_no_destroy (o : NativeOracle) (p : Nat) :
    ∀ (uses : List (Nat × Int)) (w : GeoJSONWriter),
      (writeMany o w uses).countP (isDestroyOf p) = 0 := by
  intro uses
  induction uses with
  | nil => intro w; rfl
  | cons u rest ih =>
      intro w
      obtain ⟨g, i⟩ := u
      rw [writeMany, List.countP_append, write_trace_no_destroy, write_fst, ih w]

/-- C1: for `GeoJSONWriter::new_with_context` (and for `GeoJSONWriter::new`
once its context initialization succeeded) a wrapper value is returned iff the
native constructor returned a non-null pointer; a null pointer yields
`Error::NoConstructionFromNullPtr` whose message carries the last recorded
native error text when the context has one, and no suffix otherwise. -/
theorem construction_ok_iff_nonnull (o : NativeOracle) (context : Arc ContextHandle)
    (fid : Nat) :
    ((∃ w, (GeoJSONWriter.new_with_context o context).1 = Except.ok w) ↔
        o.createResult context.val.raw ≠ 0)
    ∧ (o.createResult context.val.raw = 0 →
        (GeoJSONWriter.new_with_context o context).1 =
          Except.error (Error.NoConstructionFromNullPtr
            ("GeoJSONWriter::new_with_context" ++ lastErrorSuffix context.val)))
    ∧ (∀ x, context.val.lastError = some x →
        lastErrorSuffix context.val = "\nLast error: " ++ x)
    ∧ (context.val.lastError = none → lastErrorSuffix context.val = "")
    ∧ (∀ ch, o.init_e (some "GeoJSONWriter::new") = Except.ok ch →
        ((∃ w, (GeoJSONWriter.new o fid).1 = Except.ok w) ↔
          o.createResult ch.raw ≠ 0)) := by
  have core : ∀ (c : Arc ContextHandle),
      (∃ w, (GeoJSONWriter.new_with_context o c).1 = Except.ok w) ↔
        o.createResult c.val.raw ≠ 0 := by
    intro c
    by_cases h : o.createResult c.val.raw = 0
    · simp [GeoJSONWriter.new_with_context, ContextHandle.as_raw, h,
        GeoJSONWriter.new_from_raw]
    · simp [GeoJSONWriter.new_with_context, ContextHandle.as_raw, h,
        new_from_raw_ok _ _ _ h]
  refine ⟨core context, ?_, ?_, ?_, ?_⟩
  · intro h
    simp [GeoJSONWriter.new_with_context, ContextHandle.as_raw, h,
      new_from_raw_null]
  · intro x hx
    simp [lastErrorSuffix, ContextHandle.get_last_error, hx]
  · intro hx
    simp [lastErrorSuffix, ContextHandle.get_last_error, hx]
  · intro ch hch
    unfold GeoJSONWriter.new
    rw [hch]
    exact core { id := fid, val := ch }

/-- Closed instance of C1: with a null-returning constructor and a context
whose last error is `"boom"`, construction fails with the expected typed error. -/
theorem construction_ok_iff_nonnull_witness :
    (GeoJSONWriter.new_with_context nullOracle ctxBoom).1 =
      Except.error (Error.NoConstructionFromNullPtr
        ("GeoJSONWriter::new_with_context" ++ lastErrorSuffix ctxBoom.val)) :=
  (construction_ok_iff_nonnull nullOracle ctxBoom 0).2.1 rfl

/-- C5: `GeoJSONWriter::new_with_context` is total on every context value
(poisoned or not): it always returns either a wrapper or a
`NoConstructionFromNullPtr` construction error, never any other outcome. -/
theorem new_with_context_never_crashes (o : NativeOracle) (context : Arc ContextHandle) :
    (∃ w, (GeoJSONWriter.new_with_context o context).1 = Except.ok w) ∨
    (∃ msg, (GeoJSONWriter.new_with_context o context).1 =
        Except.error (Error.NoConstructionFromNullPtr msg)) := by
  by_cases h : o.createResult context.val.raw = 0
  · right
    refine ⟨"GeoJSONWriter::new_with_context" ++ lastErrorSuffix context.val, ?_⟩
    simp [GeoJSONWriter.new_with_context, ContextHandle.as_raw, h, new_from_raw_null]
  · left
    refine ⟨{ ptr := o.createResult context.val.raw, context := context }, ?_⟩
    simp [GeoJSONWriter.new_with_context, ContextHandle.as_raw,
      new_from_raw_ok _ _ _ h]

/-- C8: when `ContextHandle::init_e` fails, `GeoJSONWriter::new` returns that
error unchanged and makes no native call at all, so the native writer
constructor is never invoked on that path. -/
theorem new_propagates_init_error (o : NativeOracle) (fid : Nat) (e : Error)
    (h : o.init_e (some "GeoJSONWriter::new") = Except.error e) :
    (GeoJSONWriter.new o fid).1 = Except.error e ∧
    (GeoJSONWriter.new o fid).2 = [] := by
  unfold GeoJSONWriter.new
  rw [h]
  exact ⟨rfl, rfl⟩

/-- Closed instance of C8: an oracle whose `init_e` fails makes `new` return
the initialization error with an empty native-call trace. -/
theorem new_propagates_init_error_witness :
    (GeoJSONWriter.new nullOracle 3).1 =
      Except.error (Error.OperationError "init failed") ∧
    (GeoJSONWriter.new nullOracle 3).2 = [] :=
  new_propagates_init_error nullOracle 3 (Error.OperationError "init failed") rfl

/-- C10: `GeoJSONWriter::write` passes every indent value to the native call
unchanged, negative and zero included: the native write call in its trace
carries exactly the indent the caller supplied. -/
theorem write_indent_passthrough (o : NativeOracle) (w : GeoJSONWriter)
    (g : Nat) (indent : Int) :
    (GeoJSONWriter.write o w g indent).2.2.head? =
      some (NativeCall.writeGeometry w.get_raw_context w.ptr g indent) := rfl

/-- C4: `GeoJSONWriter::write` makes exactly one native write call, its result
is a binary success-or-failure value, and the wrapper's own fields (native
pointer and context reference) are unchanged by the call. -/
theorem write_atomic_binary_outcome (o : NativeOracle) (w : GeoJSONWriter)
    (g : Nat) (indent : Int) :
    ((GeoJSONWriter.write o w g indent).2.2.countP isWriteGeometry = 1)
    ∧ ((GeoJSONWriter.write o w g indent).1.ptr = w.ptr ∧
       (GeoJSONWriter.write o w g indent).1.context = w.context)
    ∧ ((∃ s, (GeoJSONWriter.write o w g indent).2.1 = Except.ok s) ∨
       (∃ e, (GeoJSONWriter.write o w g indent).2.1 = Except.error e)) := by
  refine ⟨?_, ⟨rfl, rfl⟩, ?_⟩
  · unfold GeoJSONWriter.write managed_string
    by_cases h : o.writeGeometryResult w.get_raw_context w.as_raw_mut g indent = 0 <;>
      simp [h, List.countP_cons, isWriteGeometry]
  · rcases hres : (GeoJSONWriter.write o w g indent).2.1 with e | s
    · exact Or.inr ⟨e, rfl⟩
    · exact Or.inl ⟨s, rfl⟩

/-- C2: `GeoJSONWriter::write` invokes the native write function once with the
writer's raw context, the writer's raw pointer, the geometry's raw pointer and
the indent; on a null native result it returns a typed operation error carrying
the last native error message, otherwise the owned string copied from the
native buffer, with the native buffer released via `GEOSFree_r`. -/
theorem write_native_contract (o : NativeOracle) (w : GeoJSONWriter)
    (g : Nat) (indent : Int) :
    ((GeoJSONWriter.write o w g indent).2.2.head? =
        some (NativeCall.writeGeometry w.get_raw_context w.as_raw_mut g indent))
    ∧ ((GeoJSONWriter.write o w g indent).2.2.countP isWriteGeometry = 1)
    ∧ (o.writeGeometryResult w.get_raw_context w.as_raw_mut g indent = 0 →
        (GeoJSONWriter.write o w g indent).2.1 =
          Except.error (Error.OperationError
            ("GeoJSONWriter::write" ++ lastErrorSuffix w.get_context_handle)) ∧
        (GeoJSONWriter.write o w g indent).2.2 =
          [NativeCall.writeGeometry w.get_raw_context w.as_raw_mut g indent])
    ∧ (o.writeGeometryResult w.get_raw_context w.as_raw_mut g indent ≠ 0 →
        (GeoJSONWriter.write o w g indent).2.1 =
          Except.ok (o.bufferContent
            (o.writeGeometryResult w.get_raw_context w.as_raw_mut g indent)) ∧
        (GeoJSONWriter.write o w g indent).2.2 =
          [NativeCall.writeGeometry w.get_raw_context w.as_raw_mut g indent,
           NativeCall.geosFree w.get_raw_context
             (o.writeGeometryResult w.get_raw_context w.as_raw_mut g indent)]) := by
  refine ⟨rfl, ?_, ?_, ?_⟩
  · unfold GeoJSONWriter.write managed_string
    by_cases h : o.writeGeometryResult w.get_raw_context w.as_raw_mut g indent = 0 <;>
      simp [h, List.countP_cons, isWriteGeometry]
  · intro h
    unfold GeoJSONWriter.write managed_string
    simp [h]
  · intro h
    simp only [GeoJSONWriter.get_raw_context, ContextHandle.as_raw] at h
    unfold GeoJSONWriter.write managed_string
    simp [h, GeoJSONWriter.get_raw_context, GeoJSONWriter.get_context_handle,
      ContextHandle.as_raw]

/-- Closed instance of C2: a null native write result on a concrete writer
yields the typed operation error and a trace holding only the write call. -/
theorem write_native_contract_witness :
    (GeoJSONWriter.write nullOracle w0 11 2).2.1 =
      Except.error (Error.OperationError
        ("GeoJSONWriter::write" ++ lastErrorSuffix w0.get_context_handle)) ∧
    (GeoJSONWriter.write nullOracle w0 11 2).2.2 =
      [NativeCall.writeGeometry w0.get_raw_context w0.as_raw_mut 11 2] :=
  (write_native_contract nullOracle w0 11 2).2.2.1 rfl

/-- C6: a writer holds one shared `Arc` context and an owned pointer;
`clone_context` returns the very same context allocation (same id, same value,
hence the same raw handle) with the reference count bumped and no other count
touched, and every native call the writer makes (write trace and destructor)
uses that one context's raw handle. -/
theorem clone_context_shares_context (heap : Nat → Nat) (w : GeoJSONWriter)
    (o : NativeOracle) (g : Nat) (indent : Int) :
    ((w.clone_context heap).1 = w.context)
    ∧ ((w.clone_context heap).2 w.context.id = heap w.context.id + 1)
    ∧ (∀ j, j ≠ w.context.id → (w.clone_context heap).2 j = heap j)
    ∧ (w.get_raw_context = w.context.val.raw)
    ∧ (∀ c ∈ (GeoJSONWriter.write o w g indent).2.2, c.ctx = w.context.val.raw)
    ∧ (∀ c ∈ GeoJSONWriter.drop w, c.ctx = w.context.val.raw) := by
  refine ⟨rfl, ?_, ?_, rfl, ?_, ?_⟩
  · simp [GeoJSONWriter.clone_context, Arc.clone]
  · intro j hj
    simp [GeoJSONWriter.clone_context, Arc.clone, hj]
  · intro c hc
    unfold GeoJSONWriter.write managed_string at hc
    by_cases h : o.writeGeometryResult w.get_raw_context w.as_raw_mut g indent = 0
    · simp [h] at hc
      subst hc
      rfl
    · simp [h] at hc
      rcases hc with hc | hc <;> subst hc <;> rfl
  · intro c hc
    simp [GeoJSONWriter.drop] at hc
    subst hc
    rfl

/-- Closed instance of C6: on a concrete writer, `clone_context` bumps exactly
the writer's own context allocation in the reference-count heap. -/
theorem clone_context_shares_context_witness :
    ((w0.clone_context heap0).2 w0.context.id = heap0 w0.context.id + 1) ∧
    ((w0.clone_context heap0).2 99 = heap0 99) :=
  ⟨(clone_context_shares_context heap0 w0 nullOracle 0 0).2.1,
   (clone_context_shares_context heap0 w0 nullOracle 0 0).2.2.1 99 (by decide)⟩

/-- C9: `set_context_handle` replaces only the context field with a freshly
wrapped `Arc` around the given handle: the native pointer is unchanged, and
every subsequent native call (write and the destructor) uses the new context's
raw handle. -/
theorem set_context_handle_frame (w : GeoJSONWriter) (c : ContextHandle)
    (fid : Nat) (o : NativeOracle) (g : Nat) (indent : Int) :
    ((w.set_context_handle c fid).ptr = w.ptr)
    ∧ ((w.set_context_handle c fid).context = { id := fid, val := c })
    ∧ ((w.set_context_handle c fid).get_raw_context = c.raw)
    ∧ (∀ nc ∈ (GeoJSONWriter.write o (w.set_context_handle c fid) g indent).2.2,
        nc.ctx = c.raw)
    ∧ (GeoJSONWriter.drop (w.set_context_handle c fid) =
        [NativeCall.destroy c.raw w.ptr]) := by
  refine ⟨rfl, rfl, rfl, ?_, rfl⟩
  intro nc hnc
  unfold GeoJSONWriter.write managed_string at hnc
  by_cases h : o.writeGeometryResult (w.set_context_handle c fid).get_raw_context
      (w.set_context_handle c fid).as_raw_mut g indent = 0
  · simp [h] at hnc
    subst hnc
    rfl
  · simp [h] at hnc
    rcases hnc with hnc | hnc <;> subst hnc <;> rfl

/-- Closed instance of C9: after swapping in the clean context (raw handle 8),
the write call recorded in the trace carries raw handle 8. -/
theorem set_context_handle_frame_witness :
    NativeCall.ctx (NativeCall.writeGeometry 8 5 11 2) = 8 :=
  (set_context_handle_frame w0 cClean 6 nullOracle 11 2).2.2.2.1
    (NativeCall.writeGeometry 8 5 11 2) (by decide)

/-- C3: over a writer's full lifetime (construction, any sequence of writes,
implicit drop at scope exit) the native destructor is called exactly once on
the writer's owned pointer, and never when construction failed — so it is never
called on that pointer at any other time. -/
theorem writer_destroyed_exactly_once (o : NativeOracle) (context : Arc ContextHandle)
    (uses : List (Nat × Int)) :
    (∀ w, (GeoJSONWriter.new_with_context o context).1 = Except.ok w →
        destroyCount w.ptr (session o context uses) = 1)
    ∧ (∀ e, (GeoJSONWriter.new_with_context o context).1 = Except.error e →
        ∀ p, destroyCount p (session o context uses) = 0) := by
  constructor
  · intro w hw
    unfold session
    split
    next w' tr heq =>
      have h1 : Except.ok (ε := Error) w' = Except.ok w :=
        ((congrArg Prod.fst heq).symm).trans hw
      have hw' : w' = w := by injection h1
      have htr : tr = [NativeCall.create context.val.as_raw] :=
        ((congrArg Prod.snd heq).symm).trans rfl
      subst hw'
      rw [htr]
      unfold destroyCount
      rw [List.countP_append, List.countP_append, writeMany_no_destroy]
      simp [GeoJSONWriter.drop, List.countP_cons, isDestroyOf,
        GeoJSONWriter.as_raw_mut]
    next e tr heq =>
      have h1 : Except.error (α := GeoJSONWriter) e = Except.ok w :=
        ((congrArg Prod.fst heq).symm).trans hw
      exact absurd h1 (by simp)
  · intro e he p
    unfold session
    split
    next w' tr heq =>
      have h1 : Except.ok (ε := Error) w' = Except.error e :=
        ((congrArg Prod.fst heq).symm).trans he
      exact absurd h1 (by simp)
    next e' tr heq =>
      have htr : tr = [NativeCall.create context.val.as_raw] :=
        ((congrArg Prod.snd heq).symm).trans rfl
      rw [htr]
      simp [destroyCount, isDestroyOf]

/-- Closed instance of C3: a successful concrete session with one write has
exactly one destructor call on the writer's pointer. -/
theorem writer_destroyed_exactly_once_witness :
    destroyCount 5 (session okOracle ctxClean [(11, 0)]) = 1 :=
  (writer_destroyed_exactly_once okOracle ctxClean [(11, 0)]).1
    { ptr := 5, context := ctxClean } rfl
